import Mathlib

/-!
Verification of the EDON console's credential store and gateway API client.

The development shallowly embeds the code of `src/lib/edonApi.ts`
(`getToken`, `apiFetch`, and the `edonApi` endpoint operations), the
token-shape checks of `AccessGate` and `App.tsx`, and the base-URL
normalization and settings-save logic of `Settings.tsx`.  Browser
`localStorage` is modelled as an explicit record of the keys this code
touches; every operation takes and returns the store explicitly.
-/

/-- Character class of JavaScript's `String.prototype.trim`: ASCII whitespace
plus vertical tab, form feed, NBSP and the BOM. -/
def isJsSpace (c : Char) : Bool :=
  c = ' ' || c = '\t' || c = '\n' || c = '\r' ||
  c.toNat = 11 || c.toNat = 12 || c.toNat = 160 || c.toNat = 65279

/-- JavaScript `String.prototype.trim`: drop leading and trailing whitespace. -/
def jsTrim (s : String) : String :=
  ⟨((s.data.dropWhile isJsSpace).reverse.dropWhile isJsSpace).reverse⟩

/-- Browser `localStorage`, restricted to the keys the embedded code reads or
writes.  `none` models an absent key (JS `getItem` returning `null`). -/
structure Store where
  edon_token : Option String := none
  edon_session_token : Option String := none
  edon_api_key : Option String := none
  edon_api_base : Option String := none
  EDON_BASE_URL : Option String := none
  edon_base_url : Option String := none
  edon_user_email : Option String := none
  edon_plan : Option String := none
  edon_mock_mode : Option String := none
  deriving DecidableEq, Repr

/-- A store with no keys set. -/
def emptyStore : Store := {}

/-- JavaScript `a || b` on a possibly-null string `a`: `b` when `a` is null or
empty (falsy), else `a`. -/
def orElseStr (a : Option String) (b : String) : String :=
  match a with
  | some s => if s = "" then b else s
  | none => b

/-- `getToken` from `edonApi.ts`: first truthy value among the alias keys
`edon_token`, `edon_session_token`, `edon_api_key` (else `""`), trimmed. -/
def getToken (st : Store) : String :=
  jsTrim (orElseStr st.edon_token
    (orElseStr st.edon_session_token (orElseStr st.edon_api_key "")))

/-- A token-alias value that JS treats as empty: absent key or `""`. -/
def emptyVal (o : Option String) : Bool :=
  match o with
  | none => true
  | some s => s = ""

/-- All three token alias keys are empty (absent or the empty string). -/
def aliasesEmpty (st : Store) : Bool :=
  emptyVal st.edon_token && emptyVal st.edon_session_token && emptyVal st.edon_api_key

/-- `.replace(/\/$/, "")`: remove one trailing slash if present. -/
def stripTrailingSlash (s : String) : String :=
  if s.data.getLast? = some '/' then ⟨s.data.dropLast⟩ else s

/-- `BASE_URL` from `edonApi.ts` with the environment variable unset: the
default gateway address, trailing slash removed. -/
def BASE_URL : String := stripTrailingSlash "https://edon-gateway.fly.dev"

/-- Result of `apiFetch` up to the point a network request would leave the
client: either the local authentication-required rejection, or an issued
request with its URL and header list (later entries override earlier ones,
as with a JS object spread). -/
inductive FetchOutcome where
  | authError
  | issued (url : String) (headers : List (String × String))
  deriving DecidableEq, Repr

/-- The error message `apiFetch` throws when no token is stored. -/
def authRequiredMsg : String := "Authentication required. Set your token in Settings."

/-- The headers `apiFetch` sets before spreading `options.headers`. -/
def defaultHeaders (token : String) : List (String × String) :=
  [("Content-Type", "application/json"), ("X-EDON-TOKEN", token)]

/-- `apiFetch` from `edonApi.ts`: throws if `getToken` is empty, otherwise
issues a request to `BASE_URL + path` with the default headers followed by
the caller-supplied headers. -/
def apiFetch (st : Store) (path : String) (optionHeaders : List (String × String)) :
    FetchOutcome :=
  let token := getToken st
  if token = "" then .authError
  else .issued (BASE_URL ++ path) (defaultHeaders token ++ optionHeaders)

/-- `Response.ok`: status in the 2xx range. -/
def respOk (status : Nat) : Bool := 200 ≤ status && status < 300

/-- `edonApi.health`: rejects without a token; throws on a non-ok status with
the status in the message; otherwise resolves to the parsed body.  The store
is returned unchanged because the source performs no storage writes. -/
def health {α : Type} (st : Store) (status : Nat) (body : α) :
    Except String α × Store :=
  if getToken st = "" then (.error authRequiredMsg, st)
  else if respOk status then (.ok body, st)
  else (.error ("Health check failed: " ++ toString status), st)

/-- `edonApi.getDecisions` fetch outcome: `body` models `data.decisions`,
absent (`none`) defaulting to `[]`.  `limit` and `agentId` shape only the
request path (see `decisionsPath`). -/
def getDecisions {α : Type} (st : Store) (limit : Nat) (agentId : Option String)
    (status : Nat) (body : Option (List α)) : Except String (List α) × Store :=
  let _ := limit
  let _ := agentId
  if getToken st = "" then (.error authRequiredMsg, st)
  else if respOk status then (.ok (body.getD []), st)
  else (.error ("Failed to fetch decisions: " ++ toString status), st)

/-- `edonApi.getAuditEvents`: on a non-ok status, 403 resolves to `[]`
(role may lack audit permission) and anything else throws; on ok, resolves
to `data.events || []`. -/
def getAuditEvents {α : Type} (st : Store) (status : Nat)
    (body : Option (List α)) : Except String (List α) × Store :=
  if getToken st = "" then (.error authRequiredMsg, st)
  else if !respOk status then
    (if status = 403 then (.ok [], st)
     else (.error ("Failed to fetch audit events: " ++ toString status), st))
  else (.ok (body.getD []), st)

/-- `edonApi.getPlans`: throws on non-ok status, else resolves to the body. -/
def getPlans {α : Type} (st : Store) (status : Nat) (body : α) :
    Except String α × Store :=
  if getToken st = "" then (.error authRequiredMsg, st)
  else if respOk status then (.ok body, st)
  else (.error ("Failed to fetch plans: " ++ toString status), st)

/-- `edonApi.checkout plan`: throws on non-ok status, else resolves. -/
def checkout {α : Type} (st : Store) (plan : String) (status : Nat) (body : α) :
    Except String α × Store :=
  let _ := plan
  if getToken st = "" then (.error authRequiredMsg, st)
  else if respOk status then (.ok body, st)
  else (.error ("Checkout failed: " ++ toString status), st)

/-- `edonApi.getPolicyRules`: resolves to `[]` on ANY non-ok status (no
throw), else to `data.rules || []`. -/
def getPolicyRules {α : Type} (st : Store) (status : Nat)
    (body : Option (List α)) : Except String (List α) × Store :=
  if getToken st = "" then (.error authRequiredMsg, st)
  else if !respOk status then (.ok [], st)
  else (.ok (body.getD []), st)

/-- `edonApi.verifyChain`: throws on non-ok status, else resolves. -/
def verifyChain {α : Type} (st : Store) (status : Nat) (body : α) :
    Except String α × Store :=
  if getToken st = "" then (.error authRequiredMsg, st)
  else if respOk status then (.ok body, st)
  else (.error ("Chain verify failed: " ++ toString status), st)

/-- `edonApi.setApiKey`: write the key to all three alias keys. -/
def setApiKey (key : String) (st : Store) : Store :=
  { st with edon_api_key := some key, edon_token := some key,
            edon_session_token := some key }

/-- `edonApi.getApiKey`: delegates to `getToken`. -/
def getApiKey (st : Store) : String := getToken st

/-- `edonApi.clearApiKey`: remove all three alias keys. -/
def clearApiKey (st : Store) : Store :=
  { st with edon_api_key := none, edon_token := none, edon_session_token := none }

/-- Regex character class `[A-Za-z0-9._-]` (the token charset). -/
def isTokenChar (c : Char) : Bool :=
  (65 ≤ c.toNat && c.toNat ≤ 90) || (97 ≤ c.toNat && c.toNat ≤ 122) ||
  (48 ≤ c.toNat && c.toNat ≤ 57) || c = '.' || c = '_' || c = '-'

/-- Regex character class `[a-f0-9]` under the `i` flag. -/
def isHexChar (c : Char) : Bool :=
  (48 ≤ c.toNat && c.toNat ≤ 57) || (97 ≤ c.toNat && c.toNat ≤ 102) ||
  (65 ≤ c.toNat && c.toNat ≤ 70)

/-- ASCII upper-to-lower code-point map. -/
def lowerNat (n : Nat) : Nat := if 65 ≤ n ∧ n ≤ 90 then n + 32 else n

/-- Case-insensitive ASCII character equality. -/
def charEqCI (a b : Char) : Bool := lowerNat a.toNat = lowerNat b.toNat

/-- Case-insensitive: second list is a leading segment of the first. -/
def startsWithCI : List Char → List Char → Bool
  | _, [] => true
  | [], _ :: _ => false
  | a :: as, b :: bs => charEqCI a b && startsWithCI as bs

/-- Case-insensitive substring containment (JS `/pat/i.test(s)` for a
literal pattern). -/
def hasSubCI : List Char → List Char → Bool
  | [], pat => startsWithCI [] pat
  | c :: t, pat => startsWithCI (c :: t) pat || hasSubCI t pat

/-- The token-shape check of `AccessGate.tsx` and `Settings.tsx`:
`/^(edon_[A-Za-z0-9._-]{16,}|[a-f0-9]{64}|[a-f0-9]{128}|[A-Za-z0-9._-]{24,})$/i`. -/
def isLikelyToken (s : String) : Bool :=
  let cs := s.data
  (startsWithCI cs "edon_".data && decide (16 ≤ (cs.drop 5).length) &&
    (cs.drop 5).all isTokenChar) ||
  (decide (cs.length = 64) && cs.all isHexChar) ||
  (decide (cs.length = 128) && cs.all isHexChar) ||
  (decide (24 ≤ cs.length) && cs.all isTokenChar)

/-- The token-shape check local to `App.tsx`'s URL bootstrap (source-local
name `isLikelyToken`): `/^[A-Za-z0-9._-]{20,}$/`. -/
def appIsLikelyToken (s : String) : Bool :=
  decide (20 ≤ s.data.length) && s.data.all isTokenChar

/-- The placeholder test of `Settings.tsx`'s `saveSettings`:
`/PASTE_YOUR_|NEW_GATEWAY_TOKEN_|TOKEN_HERE/i.test(s)`. -/
def containsPlaceholder (s : String) : Bool :=
  hasSubCI s.data "PASTE_YOUR_".data || hasSubCI s.data "NEW_GATEWAY_TOKEN_".data ||
  hasSubCI s.data "TOKEN_HERE".data

/-- Outcome of the manual connect handler in `AccessGate.tsx`. -/
inductive ConnectOutcome where
  | emptyKey
  | badFormat
  | connected
  deriving DecidableEq, Repr

/-- `AccessGate.handleConnect`: trim the key; reject empty input and inputs
failing `isLikelyToken`; otherwise store the trimmed key under all three
alias keys. -/
def handleConnect (key : String) (st : Store) : Store × ConnectOutcome :=
  let trimmed := jsTrim key
  if trimmed = "" then (st, .emptyKey)
  else if !isLikelyToken trimmed then (st, .badFormat)
  else ({ st with edon_token := some trimmed, edon_api_key := some trimmed,
                  edon_session_token := some trimmed }, .connected)

/-- The token leg of `App.tsx`'s URL-parameter bootstrap (lines 86 and
101–123 of the source): trim the incoming `token` parameter, gate it with
the bootstrap shape check, and store it (plus `edon_mock_mode = "false"`)
only when the check passes.  The account-change reload and the URL-cleanup
steps perform no further storage writes to token keys and are omitted. -/
def tokenBootstrap (rawToken : String) (st : Store) : Store :=
  let token := jsTrim rawToken
  let safeToken := if appIsLikelyToken token then token else ""
  if safeToken ≠ "" then
    { st with edon_token := some safeToken, edon_session_token := some safeToken,
              edon_api_key := some safeToken, edon_mock_mode := some "false" }
  else st

/-- Case-sensitive: second list is a leading segment of the first. -/
def listStarts : List Char → List Char → Bool
  | _, [] => true
  | [], _ :: _ => false
  | a :: as, b :: bs => a = b && listStarts as bs

/-- Split a list at the first occurrence of a marker, returning the parts
before and after it; `none` when the marker does not occur. -/
def splitSub : List Char → List Char → Option (List Char × List Char)
  | [], pat => if listStarts [] pat then some ([], []) else none
  | c :: t, pat =>
    if listStarts (c :: t) pat then some ([], (c :: t).drop pat.length)
    else (splitSub t pat).map fun p => (c :: p.1, p.2)

/-- Scheme body characters: `[A-Za-z0-9+.-]`. -/
def isSchemeChar (c : Char) : Bool :=
  (65 ≤ c.toNat && c.toNat ≤ 90) || (97 ≤ c.toNat && c.toNat ≤ 122) ||
  (48 ≤ c.toNat && c.toNat ≤ 57) || c = '+' || c = '.' || c = '-'

/-- An ASCII letter. -/
def isAsciiLetter (c : Char) : Bool :=
  (65 ≤ c.toNat && c.toNat ≤ 90) || (97 ≤ c.toNat && c.toNat ≤ 122)

/-- ASCII lowercase of one character. -/
def lowerChar (c : Char) : Char := Char.ofNat (lowerNat c.toNat)

/-- Digits of a decimal numeral to its value; `none` on a non-digit or an
empty list. -/
def digitsToNat (cs : List Char) : Option Nat :=
  if cs = [] then none
  else if cs.all (fun c => 48 ≤ c.toNat && c.toNat ≤ 57) then
    some (cs.foldl (fun acc c => acc * 10 + (c.toNat - 48)) 0)
  else none

/-- Drop a `userinfo@` segment: keep everything after the last `@`. -/
def dropUserinfo (cs : List Char) : List Char :=
  if cs.contains '@' then (cs.reverse.takeWhile (fun c => c ≠ '@')).reverse else cs

/-- Split `host[:port]` at the last colon; the left part is the host and the
right the port digits.  Without a colon the whole input is the host. -/
def splitLastColon (cs : List Char) : List Char × Option (List Char) :=
  if cs.contains ':' then
    (((cs.reverse.dropWhile (fun c => c ≠ ':')).drop 1).reverse,
     some (cs.reverse.takeWhile (fun c => c ≠ ':')).reverse)
  else (cs, none)

/-- Parse result of an absolute URL: scheme and host (both lowercased) and
an optional explicit port. -/
structure UrlParts where
  scheme : String
  host : String
  port : Option Nat
  deriving DecidableEq, Repr

/-- Characters that cannot appear in a host. -/
def isHostForbidden (c : Char) : Bool :=
  c = ':' || c = '@' || c = ' ' || c = '\\' || c.toNat = 91 || c.toNat = 93

/-- Modelled from the spec: the platform WHATWG URL constructor (`new URL`),
which is not part of this repository, restricted to the absolute form the
spec describes — `scheme://host[:port][/path][?query][#fragment]`.  The
scheme must start with a letter and continue with scheme characters; the
authority runs to the first `/`, `?` or `#`; a `userinfo@` segment is
dropped; the port, when present, must be decimal and at most 65535; the
host must be non-empty and free of forbidden characters.  Scheme and host
are lowercased, as the platform parser does. -/
def parseUrl (s : String) : Option UrlParts :=
  match splitSub s.data "://".data with
  | none => none
  | some (schemeCs, rest) =>
    if schemeCs ≠ [] && isAsciiLetter (schemeCs.headD ' ') &&
       schemeCs.all isSchemeChar then
      let auth := rest.takeWhile fun c => !(c = '/' || c = '?' || c = '#')
      let hp := dropUserinfo auth
      let (hostCs, portCs) := splitLastColon hp
      if hostCs = [] || hostCs.any isHostForbidden then none
      else
        match portCs with
        | none => some ⟨⟨schemeCs.map lowerChar⟩, ⟨hostCs.map lowerChar⟩, none⟩
        | some [] => some ⟨⟨schemeCs.map lowerChar⟩, ⟨hostCs.map lowerChar⟩, none⟩
        | some pcs =>
          match digitsToNat pcs with
          | some p =>
            if p ≤ 65535 then
              some ⟨⟨schemeCs.map lowerChar⟩, ⟨hostCs.map lowerChar⟩, some p⟩
            else none
          | none => none
    else none

/-- Default port of a scheme, omitted from the origin. -/
def defaultPort (scheme : String) : Option Nat :=
  if scheme = "http" then some 80
  else if scheme = "https" then some 443
  else none

/-- `URL.origin` for an http/https URL: `scheme://host`, with `:port` only
when an explicit non-default port is present. -/
def urlOrigin (u : UrlParts) : String :=
  u.scheme ++ "://" ++ u.host ++
    (match u.port with
     | none => ""
     | some p => if defaultPort u.scheme = some p then "" else ":" ++ toString p)

/-- `normalizeBaseUrl` from `Settings.tsx`: parse the trimmed value; reject
non-`http`/`https` protocols and unparseable input with `""`; otherwise
return the origin. -/
def normalizeBaseUrl (value : String) : String :=
  match parseUrl (jsTrim value) with
  | none => ""
  | some u => if u.scheme = "http" || u.scheme = "https" then urlOrigin u else ""

/-- `sanitizeBaseUrl` from `App.tsx`: like `normalizeBaseUrl` but on an
already-trimmed value, with an explicit early `""` for empty input. -/
def sanitizeBaseUrl (value : String) : String :=
  if value = "" then ""
  else
    match parseUrl value with
    | none => ""
    | some u => if u.scheme = "http" || u.scheme = "https" then urlOrigin u else ""

/-- Outcome of `Settings.tsx`'s `saveSettings`. -/
inductive SaveOutcome where
  | rejectedPlaceholder
  | rejectedUrl
  | rejectedKeyFormat
  | saved
  deriving DecidableEq, Repr

/-- `persist` from `Settings.tsx`: write the base URL under its three keys
and the token under `edon_token` and `edon_api_key`. -/
def persist (trimmedBase trimmedToken : String) (st : Store) : Store :=
  { st with edon_api_base := some trimmedBase, edon_token := some trimmedToken,
            edon_api_key := some trimmedToken, EDON_BASE_URL := some trimmedBase,
            edon_base_url := some trimmedBase }

/-- `saveSettings` from `Settings.tsx`: reject placeholder tokens, then an
unnormalizable base URL, then a token failing the shape check; only then
persist. -/
def saveSettings (baseUrl token : String) (st : Store) : Store × SaveOutcome :=
  let trimmedToken := jsTrim token
  let safeBase := normalizeBaseUrl (jsTrim baseUrl)
  if containsPlaceholder trimmedToken then (st, .rejectedPlaceholder)
  else if safeBase = "" then (st, .rejectedUrl)
  else if !isLikelyToken trimmedToken then (st, .rejectedKeyFormat)
  else (persist safeBase trimmedToken st, .saved)

/-- An uppercase hexadecimal digit. -/
def hexDigitUpper (n : Nat) : Char := Char.ofNat (if n < 10 then 48 + n else 55 + n)

/-- Percent-encoding of one byte. -/
def percentByte (n : Nat) : String :=
  ⟨['%', hexDigitUpper (n / 16 % 16), hexDigitUpper (n % 16)]⟩

/-- Modelled from the spec: the platform `URLSearchParams` serializer
(application/x-www-form-urlencoded), which is not part of this repository,
on ASCII input: alphanumerics and `*-._` kept, space as `+`, everything
else percent-encoded. -/
def formEncodeChar (c : Char) : String :=
  if (48 ≤ c.toNat && c.toNat ≤ 57) || (65 ≤ c.toNat && c.toNat ≤ 90) ||
     (97 ≤ c.toNat && c.toNat ≤ 122) || c = '*' || c = '-' || c = '.' || c = '_' then
    String.singleton c
  else if c = ' ' then "+"
  else percentByte (c.toNat % 256)

/-- Form-encode a whole string. -/
def formEncode (s : String) : String := String.join (s.data.map formEncodeChar)

/-- Serialize a parameter list as `URLSearchParams.toString` does. -/
def serializeParams (ps : List (String × String)) : String :=
  String.intercalate "&" (ps.map fun kv => formEncode kv.1 ++ "=" ++ formEncode kv.2)

/-- The parameter list `edonApi.getDecisions` builds:
`new URLSearchParams({limit: String(limit)})`, then `agent_id` appended
only when `agentId` is truthy (present and non-empty). -/
def decisionsParams (limit : Nat) (agentId : Option String) : List (String × String) :=
  let params := [("limit", toString limit)]
  match agentId with
  | some a => if a = "" then params else params ++ [("agent_id", a)]
  | none => params

/-- The request path `edonApi.getDecisions` passes to `apiFetch`. -/
def decisionsPath (limit : Nat) (agentId : Option String) : String :=
  "/decisions/query?" ++ serializeParams (decisionsParams limit agentId)

/-- A store holding a well-formed token under `edon_token` only. -/
def cexStore : Store := { edon_token := some "edon_abcdefghijklmnopqrs" }

deriving instance DecidableEq for Except

/-- Trimming the empty string yields the empty string. -/
theorem jsTrim_empty : jsTrim "" = "" := by decide

/-- When every token alias is empty, `getToken` returns the empty string. -/
theorem getToken_of_aliasesEmpty (st : Store) (h : aliasesEmpty st = true) :
    getToken st = "" := by
  unfold aliasesEmpty at h
  unfold getToken orElseStr
  rcases h1 : st.edon_token with _ | s1 <;>
    rcases h2 : st.edon_session_token with _ | s2 <;>
      rcases h3 : st.edon_api_key with _ | s3 <;>
        simp [h1, h2, h3, emptyVal] at h ⊢ <;>
          simp_all [jsTrim_empty]

/-- Claim C7: the token-shape check accepts
`"edon_abcdefghijklmnopqrstuvwxy"` (an `edon_` prefix followed by more than
16 token-charset characters) and rejects `"short"`. -/
theorem spec_C7 :
    isLikelyToken "edon_abcdefghijklmnopqrstuvwxy" = true ∧
    isLikelyToken "short" = false := by decide

/-- Claim C8: `getDecisions` with limit 50 and no agent id builds the path
`/decisions/query?limit=50` (query string exactly `limit=50`); with an
agent id supplied it appends it as the `agent_id` parameter. -/
theorem spec_C8 (a : String) (h : a ≠ "") :
    decisionsPath 50 none = "/decisions/query?limit=50" ∧
    decisionsParams 50 (some a) = [("limit", "50"), ("agent_id", a)] := by
  have h50 : (toString 50 : String) = "50" := by decide
  refine ⟨by decide, ?_⟩
  simp [decisionsParams, h, h50]

/-- Claim C8 witness at a concrete agent id. -/
theorem witness_C8 :
    decisionsParams 50 (some "agent-1") = [("limit", "50"), ("agent_id", "agent-1")] :=
  (spec_C8 "agent-1" (by decide)).2

/-- Claim C5: with every token alias empty, `apiFetch` rejects with the
authentication-required error before any request is issued, for every path
and options; with a stored non-empty (well-formed) token, it issues the
request with that token as the `X-EDON-TOKEN` header alongside the JSON
content type. -/
theorem spec_C5 (st : Store) (path : String) (hs : List (String × String)) :
    (aliasesEmpty st = true → apiFetch st path hs = .authError) ∧
    (∀ t : String, st.edon_token = some t → t ≠ "" → jsTrim t = t →
      apiFetch st path hs = .issued (BASE_URL ++ path) (defaultHeaders t ++ hs) ∧
      ("Content-Type", "application/json") ∈ defaultHeaders t ++ hs ∧
      ("X-EDON-TOKEN", t) ∈ defaultHeaders t ++ hs) := by
  constructor
  · intro h
    have hg := getToken_of_aliasesEmpty st h
    simp [apiFetch, hg]
  · intro t ht hne htr
    have hg : getToken st = t := by
      unfold getToken orElseStr
      rw [ht]
      simp [hne, htr]
    refine ⟨?_, ?_, ?_⟩
    · simp [apiFetch, hg, hne]
    · simp [defaultHeaders]
    · simp [defaultHeaders]

/-- Claim C5 witness: with an empty store the fetch is refused locally;
with a stored token the request carries it in the `X-EDON-TOKEN` header. -/
theorem witness_C5 :
    apiFetch emptyStore "/health" [] = .authError ∧
    apiFetch cexStore "/health" [] =
      .issued (BASE_URL ++ "/health")
        (defaultHeaders "edon_abcdefghijklmnopqrs" ++ []) := by
  refine ⟨(spec_C5 emptyStore "/health" []).1 (by decide), ?_⟩
  exact ((spec_C5 cexStore "/health" []).2 "edon_abcdefghijklmnopqrs" rfl
    (by decide) (by decide)).1

/-- Claim C1, amended: on an HTTP 401 response the cited client's endpoint
operations reject with an error embedding the status (except
`getPolicyRules`, which resolves to an empty list), and every operation
leaves the store — in particular all token alias keys — unchanged; no
token clearing occurs. -/
theorem spec_C1 {α : Type} (st : Store) (b : α) (d e r : Option (List α))
    (plan : String) (h : getToken st ≠ "") :
    health st 401 b = (.error "Health check failed: 401", st) ∧
    getDecisions st 50 none 401 d = (.error "Failed to fetch decisions: 401", st) ∧
    getAuditEvents st 401 e = (.error "Failed to fetch audit events: 401", st) ∧
    getPlans st 401 b = (.error "Failed to fetch plans: 401", st) ∧
    checkout st plan 401 b = (.error "Checkout failed: 401", st) ∧
    getPolicyRules st 401 r = (.ok [], st) ∧
    verifyChain st 401 b = (.error "Chain verify failed: 401", st) := by
  have hok : respOk 401 = false := by decide
  have hm1 : ("Health check failed: " ++ toString 401 : String) =
      "Health check failed: 401" := by decide
  have hm2 : ("Failed to fetch decisions: " ++ toString 401 : String) =
      "Failed to fetch decisions: 401" := by decide
  have hm3 : ("Failed to fetch audit events: " ++ toString 401 : String) =
      "Failed to fetch audit events: 401" := by decide
  have hm4 : ("Failed to fetch plans: " ++ toString 401 : String) =
      "Failed to fetch plans: 401" := by decide
  have hm5 : ("Checkout failed: " ++ toString 401 : String) =
      "Checkout failed: 401" := by decide
  have hm7 : ("Chain verify failed: " ++ toString 401 : String) =
      "Chain verify failed: 401" := by decide
  refine ⟨?_, ?_, ?_, ?_, ?_, ?_, ?_⟩
  · simp [health, h, hok, hm1]
  · simp [getDecisions, h, hok, hm2]
  · simp [getAuditEvents, h, hok, hm3]
  · simp [getPlans, h, hok, hm4]
  · simp [checkout, h, hok, hm5]
  · simp [getPolicyRules, h, hok]
  · simp [verifyChain, h, hok, hm7]

/-- Claim C1 fails as stated: with a token stored, a 401 response to the
health operation completes (rejects) while the token alias keys are not
empty afterwards — the client performs no clearing. -/
theorem counterexample_C1 :
    (health cexStore 401 (0 : Nat)).1 = .error "Health check failed: 401" ∧
    aliasesEmpty (health cexStore 401 (0 : Nat)).2 = false := by decide

/-- Claim C1 witness at a concrete store. -/
theorem witness_C1 :
    health cexStore 401 (0 : Nat) = (.error "Health check failed: 401", cexStore) :=
  (spec_C1 cexStore 0 none none none "pro" (by decide)).1

/-- Claim C2, amended: a 403 response makes `getAuditEvents` resolve to an
empty list with no error, and every other endpoint operation raises an
error — except `getPolicyRules`, which also resolves to an empty list on
403 (as on every non-2xx status). -/
theorem spec_C2 {α : Type} (st : Store) (b : α) (d ev rl : Option (List α))
    (plan : String) (h : getToken st ≠ "") :
    getAuditEvents st 403 ev = (.ok [], st) ∧
    getPolicyRules st 403 rl = (.ok [], st) ∧
    health st 403 b = (.error "Health check failed: 403", st) ∧
    getDecisions st 50 none 403 d = (.error "Failed to fetch decisions: 403", st) ∧
    getPlans st 403 b = (.error "Failed to fetch plans: 403", st) ∧
    checkout st plan 403 b = (.error "Checkout failed: 403", st) ∧
    verifyChain st 403 b = (.error "Chain verify failed: 403", st) := by
  have hok : respOk 403 = false := by decide
  have hm3 : ("Health check failed: " ++ toString 403 : String) =
      "Health check failed: 403" := by decide
  have hm4 : ("Failed to fetch decisions: " ++ toString 403 : String) =
      "Failed to fetch decisions: 403" := by decide
  have hm5 : ("Failed to fetch plans: " ++ toString 403 : String) =
      "Failed to fetch plans: 403" := by decide
  have hm6 : ("Checkout failed: " ++ toString 403 : String) =
      "Checkout failed: 403" := by decide
  have hm7 : ("Chain verify failed: " ++ toString 403 : String) =
      "Chain verify failed: 403" := by decide
  refine ⟨?_, ?_, ?_, ?_, ?_, ?_, ?_⟩
  · simp [getAuditEvents, h, hok]
  · simp [getPolicyRules, h, hok]
  · simp [health, h, hok, hm3]
  · simp [getDecisions, h, hok, hm4]
  · simp [getPlans, h, hok, hm5]
  · simp [checkout, h, hok, hm6]
  · simp [verifyChain, h, hok, hm7]

/-- Claim C2 fails as stated: `getPolicyRules` — an endpoint other than the
audit-events one — resolves to an empty list on a 403 response instead of
raising an error. -/
theorem counterexample_C2 :
    (getPolicyRules cexStore 403 (some [(1 : Nat), 2])).1 = .ok [] := by decide

/-- Claim C2 witness at a concrete store. -/
theorem witness_C2 :
    getAuditEvents cexStore 403 (none : Option (List Nat)) = (.ok [], cexStore) :=
  (spec_C2 cexStore 0 none none none "pro" (by decide)).1

/-- Claim C3, amended: each credential-storing operation stores a token
only when it passes that operation's own shape check — the four-alternative
check for the access-gate connect and the settings save, the weaker
20-plus-character charset check for the URL-parameter bootstrap; a string
failing the relevant check leaves the store untouched.  The bootstrap may
therefore store strings that fail the four-alternative shape check. -/
theorem spec_C3 (s base : String) (st : Store) :
    (isLikelyToken (jsTrim s) = false → (handleConnect s st).1 = st) ∧
    (appIsLikelyToken (jsTrim s) = false → tokenBootstrap s st = st) ∧
    (isLikelyToken (jsTrim s) = false → (saveSettings base s st).1 = st) := by
  refine ⟨?_, ?_, ?_⟩
  · intro h
    unfold handleConnect
    by_cases he : jsTrim s = ""
    · simp [he]
    · simp [he, h]
  · intro h
    unfold tokenBootstrap
    simp [h]
  · intro h
    unfold saveSettings
    by_cases hp : containsPlaceholder (jsTrim s) = true
    · simp [hp]
    · by_cases hb : normalizeBaseUrl (jsTrim base) = ""
      · simp [hp, hb]
      · simp [hp, hb, h]

/-- Claim C3 fails as stated: the 20-character string of `a`s fails the
token-shape check (the four-alternative check the spec and C7 describe),
yet the URL-parameter bootstrap stores it under the token keys. -/
theorem counterexample_C3 :
    isLikelyToken "aaaaaaaaaaaaaaaaaaaa" = false ∧
    (tokenBootstrap "aaaaaaaaaaaaaaaaaaaa" emptyStore).edon_token =
      some "aaaaaaaaaaaaaaaaaaaa" := by decide

/-- Claim C3 witness: the rejected input `"short"` is stored by none of the
three operations. -/
theorem witness_C3 :
    (handleConnect "short" emptyStore).1 = emptyStore ∧
    tokenBootstrap "short" emptyStore = emptyStore ∧
    (saveSettings "https://x.com" "short" emptyStore).1 = emptyStore := by
  have h := spec_C3 "short" "https://x.com" emptyStore
  exact ⟨h.1 (by decide), h.2.1 (by decide), h.2.2 (by decide)⟩

/-- Claim C4: for a string parsing as an absolute `http`/`https` URL,
normalization returns exactly the URL's origin (scheme, host, optional
non-default port — path, query and trailing slash removed); for a string
parsing with another scheme, or not parsing at all, it returns the empty
string; and `"https://api.example.com/foo?x=1"` normalizes to
`"https://api.example.com"`. -/
theorem spec_C4 :
    (∀ (s : String) (u : UrlParts), parseUrl (jsTrim s) = some u →
      u.scheme = "http" ∨ u.scheme = "https" → normalizeBaseUrl s = urlOrigin u) ∧
    (∀ s : String, parseUrl (jsTrim s) = none → normalizeBaseUrl s = "") ∧
    (∀ (s : String) (u : UrlParts), parseUrl (jsTrim s) = some u →
      ¬(u.scheme = "http" ∨ u.scheme = "https") → normalizeBaseUrl s = "") ∧
    normalizeBaseUrl "https://api.example.com/foo?x=1" = "https://api.example.com" ∧
    sanitizeBaseUrl "https://api.example.com/foo?x=1" = "https://api.example.com" := by
  refine ⟨?_, ?_, ?_, by decide, by decide⟩
  · intro s u hp hs
    unfold normalizeBaseUrl
    rw [hp]
    rcases hs with h | h <;> simp [h]
  · intro s hp
    unfold normalizeBaseUrl
    rw [hp]
  · intro s u hp hs
    unfold normalizeBaseUrl
    rw [hp]
    have h1 : u.scheme ≠ "http" := fun hh => hs (Or.inl hh)
    have h2 : u.scheme ≠ "https" := fun hh => hs (Or.inr hh)
    simp [h1, h2]

/-- Claim C4 witness: a URL with an explicit non-default port and a path
normalizes to its origin. -/
theorem witness_C4 :
    normalizeBaseUrl "http://example.org:8080/a/" =
      urlOrigin ⟨"http", "example.org", some 8080⟩ :=
  spec_C4.1 "http://example.org:8080/a/" ⟨"http", "example.org", some 8080⟩
    (by decide) (Or.inl rfl)

/-- Claim C6, amended: after `setApiKey k` all three alias keys hold
exactly `k`, and `getApiKey` returns the trimmed value `jsTrim k`; the
read-back equals `k` itself exactly when `k` carries no surrounding
whitespace. -/
theorem spec_C6 (k : String) (st : Store) :
    (setApiKey k st).edon_token = some k ∧
    (setApiKey k st).edon_session_token = some k ∧
    (setApiKey k st).edon_api_key = some k ∧
    getApiKey (setApiKey k st) = jsTrim k ∧
    (jsTrim k = k → getApiKey (setApiKey k st) = k) := by
  have h4 : getApiKey (setApiKey k st) = jsTrim k := by
    unfold getApiKey getToken setApiKey orElseStr
    by_cases hk : k = "" <;> simp [hk]
  exact ⟨rfl, rfl, rfl, h4, fun h => h4.trans h⟩

/-- Claim C6 fails as stated: storing the token `" a"` and reading it back
returns the trimmed `"a"`, not the stored string. -/
theorem counterexample_C6 :
    getApiKey (setApiKey " a" emptyStore) ≠ " a" ∧
    getApiKey (setApiKey " a" emptyStore) = "a" := by decide

/-- Claim C6 witness: a whitespace-free token round-trips exactly. -/
theorem witness_C6 :
    getApiKey (setApiKey "edon_witnesskey1234567" emptyStore) =
      "edon_witnesskey1234567" :=
  (spec_C6 "edon_witnesskey1234567" emptyStore).2.2.2.2 (by decide)

/-- Claim C9: a token whose trimmed form contains one of the placeholder
markers `PASTE_YOUR_`, `NEW_GATEWAY_TOKEN_` or `TOKEN_HERE`
(case-insensitively) makes the settings save refuse before any validation
of the base URL, leaving the whole store unchanged — even though such
strings can pass the token-shape check. -/
theorem spec_C9 (st : Store) (base tok : String)
    (h : containsPlaceholder (jsTrim tok) = true) :
    saveSettings base tok st = (st, SaveOutcome.rejectedPlaceholder) ∧
    isLikelyToken "edon_PASTE_YOUR_KEY_123456" = true ∧
    containsPlaceholder "edon_PASTE_YOUR_KEY_123456" = true := by
  refine ⟨?_, by decide, by decide⟩
  unfold saveSettings
  simp [h]

/-- Claim C9 witness: a shape-valid placeholder token is refused and the
store is unchanged. -/
theorem witness_C9 :
    saveSettings "https://x.com" "edon_PASTE_YOUR_KEY_123456" emptyStore =
      (emptyStore, SaveOutcome.rejectedPlaceholder) :=
  (spec_C9 emptyStore "https://x.com" "edon_PASTE_YOUR_KEY_123456" (by decide)).1

/-- Claim C10: `getToken` returns the first non-empty alias value in the
priority order `edon_token`, `edon_session_token`, `edon_api_key`, trimmed;
and after `clearApiKey` both `getToken` and `getApiKey` return the empty
string. -/
theorem spec_C10 (st : Store) (t : String) :
    (st.edon_token = some t → t ≠ "" → getToken st = jsTrim t) ∧
    ((st.edon_token = none ∨ st.edon_token = some "") →
      st.edon_session_token = some t → t ≠ "" → getToken st = jsTrim t) ∧
    ((st.edon_token = none ∨ st.edon_token = some "") →
      (st.edon_session_token = none ∨ st.edon_session_token = some "") →
      st.edon_api_key = some t → t ≠ "" → getToken st = jsTrim t) ∧
    getToken (clearApiKey st) = "" ∧ getApiKey (clearApiKey st) = "" := by
  refine ⟨?_, ?_, ?_, ?_, ?_⟩
  · intro h1 h2
    unfold getToken orElseStr
    rw [h1]
    simp [h2]
  · intro h0 h1 h2
    unfold getToken orElseStr
    rcases h0 with h0 | h0 <;> rw [h0, h1] <;> simp [h2]
  · intro h0 h0' h1 h2
    unfold getToken orElseStr
    rcases h0 with h0 | h0 <;> rcases h0' with h0' | h0' <;>
      rw [h0, h0', h1] <;> simp [h2]
  · unfold getToken clearApiKey orElseStr
    simp [jsTrim_empty]
  · unfold getApiKey getToken clearApiKey orElseStr
    simp [jsTrim_empty]

/-- Claim C10 witness: with the token only under `edon_token`, `getToken`
returns it trimmed, and clearing empties the read-back. -/
theorem witness_C10 :
    getToken cexStore = jsTrim "edon_abcdefghijklmnopqrs" ∧
    getToken (clearApiKey cexStore) = "" := by
  have h := spec_C10 cexStore "edon_abcdefghijklmnopqrs"
  exact ⟨h.1 rfl (by decide), h.2.2.2.1⟩


